import Mathlib

/-!
Verification of modules/video_output/drawable.c.

A shallow embedding of the embedded-window provider: `Open` (with its two
entry points `OpenXID` and `OpenHWND`), `Close` and `Control`, over an explicit
state made of the root (libvlc) object's three variables and the window object.

Every call is one atomic step: the embedding follows sequences of calls, the
interleaving of the statements of two calls is not represented.
-/

namespace Drawable

/-! ## Data model -/

/-- The three return codes the file uses. Their numeric values are set in
vlc_common.h, not in drawable.c, so the codes stay symbolic; they are pairwise
distinct. -/
inductive RetCode
  | VLC_SUCCESS
  | VLC_EGENERIC
  | VLC_ENOMEM
  deriving DecidableEq

/-- The null address. -/
def NULL : Nat := 0

/-- The two members of `vlc_value_t` the file reads and writes: the integer
view `i_int` and the address view `p_address` (an address is a natural number,
`NULL` is 0). One variable is only ever accessed through one of the two views
(chosen by `ptr` in `Open`), so the views are kept side by side. -/
structure vlc_value_t where
  i_int : Int
  p_address : Nat
  deriving DecidableEq

/-- A boolean variable of an object's variable store: its value and its usage
count (`i_usage`), one per outstanding `var_Create`. -/
structure variable_t where
  b_bool : Bool
  i_usage : Nat
  deriving DecidableEq

/-- The variables of the root object (`obj->p_libvlc`) the file touches:
"drawable-xid", "drawable-hwnd" (always present on the root object) and
"drawable-busy" (absent until somebody creates it). -/
structure libvlc_int_t where
  drawable_xid : vlc_value_t
  drawable_hwnd : vlc_value_t
  drawable_busy : Option variable_t
  deriving DecidableEq

/-- The two variable names `Open` is called with: "drawable-xid" and
"drawable-hwnd". -/
inductive VarName
  | drawable_xid
  | drawable_hwnd
  deriving DecidableEq

/-- The union `handle` of a window: either member `hwnd` or member `xid`. -/
inductive handle_t
  | hwnd (p : Nat)
  | xid (x : Int)
  deriving DecidableEq

/-- The callbacks a window's `control` pointer can be set to by this file. -/
inductive control_t
  | Control
  deriving DecidableEq

/-- The fields of `vout_window_t` the file reads or writes. `handle` and
`control` are `none` as long as nothing was stored in them. -/
structure vout_window_t where
  handle : Option handle_t
  width : Nat
  height : Nat
  control : Option control_t
  deriving DecidableEq

/-! ## The host variable store -/

/-- Modelled from the spec: `var_Create (obj->p_libvlc, "drawable-busy",
VLC_VAR_BOOL)` of the host variable store, which drawable.c calls and does not
define. The store is the one holding the slot's busy flag; as the comment in
`Close` says, its variables are reference-counted: creating an existing
variable adds one usage and keeps the value, creating an absent one makes it
with value false and one usage. -/
def var_Create (root : libvlc_int_t) : libvlc_int_t :=
  match root.drawable_busy with
  | none => { root with drawable_busy := some { b_bool := false, i_usage := 1 } }
  | some v => { root with drawable_busy := some { v with i_usage := v.i_usage + 1 } }

/-- Modelled from the spec: `var_Destroy (obj->p_libvlc, "drawable-busy")` of
the host variable store: one usage less, and the variable is removed when no
usage is left. On an absent variable nothing happens. -/
def var_Destroy (root : libvlc_int_t) : libvlc_int_t :=
  match root.drawable_busy with
  | none => root
  | some v =>
    if v.i_usage - 1 > 0 then
      { root with drawable_busy := some { v with i_usage := v.i_usage - 1 } }
    else
      { root with drawable_busy := none }

/-- Modelled from the spec: `var_GetBool (obj->p_libvlc, "drawable-busy")`, the
read of the busy flag; an absent variable reads as false. -/
def var_GetBool (root : libvlc_int_t) : Bool :=
  match root.drawable_busy with
  | none => false
  | some v => v.b_bool

/-- Modelled from the spec: `var_SetBool (obj->p_libvlc, "drawable-busy", b)`,
the write of the busy flag; on an absent variable nothing happens. -/
def var_SetBool (root : libvlc_int_t) (b : Bool) : libvlc_int_t :=
  match root.drawable_busy with
  | none => root
  | some v => { root with drawable_busy := some { v with b_bool := b } }

/-- Modelled from the spec: `var_Get (obj->p_libvlc, varname, &globval)`, the
read of the handle registered on the root object (the spec's
`GetRegisteredHandle(slotId)`). -/
def var_Get (root : libvlc_int_t) (varname : VarName) : vlc_value_t :=
  match varname with
  | VarName.drawable_xid => root.drawable_xid
  | VarName.drawable_hwnd => root.drawable_hwnd

/-- What the host variable store answers during one call of `Open`, for the
parts that depend on objects outside this file:
`busy_created` - `var_Create (obj->p_libvlc, "drawable-busy", ...)` returned 0;
`var_created` - `var_Create (obj, varname, VLC_VAR_DOINHERIT | ...)` returned 0;
`val` - the value `var_Get (obj, varname, &val)` then reads, that is the value
the window object inherits for `varname` from its ancestors. -/
structure OpenCall where
  busy_created : Bool
  var_created : Bool
  val : vlc_value_t
  deriving DecidableEq

/-! ## The functions of drawable.c -/

/-- What one call of `Open` leaves behind: the return code, the window object
and the root object. -/
structure OpenResult where
  ret : RetCode
  wnd : vout_window_t
  root : libvlc_int_t
  deriving DecidableEq

/-- The test `ptr ? (a.p_address == b.p_address) : (a.i_int == b.i_int)`. -/
def same_value (ptr : Bool) (a b : vlc_value_t) : Bool :=
  if ptr then decide (a.p_address = b.p_address) else decide (a.i_int = b.i_int)

/-- The test `ptr ? (val.p_address == NULL) : (val.i_int == 0)`. -/
def is_empty (ptr : Bool) (val : vlc_value_t) : Bool :=
  if ptr then decide (val.p_address = NULL) else decide (val.i_int = 0)

/-- The assignment `if (ptr) val.p_address = NULL; else val.i_int = 0;`. -/
def clear_value (ptr : Bool) (val : vlc_value_t) : vlc_value_t :=
  if ptr then { val with p_address := NULL } else { val with i_int := 0 }

/-- The assignment `if (ptr) wnd->handle.hwnd = val.p_address; else
wnd->handle.xid = val.i_int;`. -/
def handle_of (ptr : Bool) (val : vlc_value_t) : handle_t :=
  if ptr then handle_t.hwnd val.p_address else handle_t.xid val.i_int

/-- `Open (obj, varname, ptr)`: find the drawable set by the application.
`obj` is the window `wnd` together with its root object `root`; `c` is what the
variable store answers during the call. The variable `varname` that the call
creates on the window object is destroyed again before the call returns and
is not kept in the state. -/
def Open (c : OpenCall) (root : libvlc_int_t) (wnd : vout_window_t)
    (varname : VarName) (ptr : Bool) : OpenResult :=
  -- if (var_Create (obj->p_libvlc, "drawable-busy", VLC_VAR_BOOL) || ...
  if c.busy_created = false then
    { ret := RetCode.VLC_ENOMEM, wnd := wnd, root := root }
  else
    let root1 := var_Create root
    -- ... || var_Create (obj, varname, VLC_VAR_DOINHERIT | ...)) return VLC_ENOMEM;
    if c.var_created = false then
      { ret := RetCode.VLC_ENOMEM, wnd := wnd, root := root1 }
    else
      -- var_Get (obj, varname, &val);
      let val := c.val
      -- vlc_mutex_lock; var_Get (obj->p_libvlc, varname, &globval);
      let globval := var_Get root1 varname
      let locked : vlc_value_t × libvlc_int_t :=
        if same_value ptr val globval then
          if var_GetBool root1 then
            -- LibVLC-wide drawable already in use
            (clear_value ptr val, root1)
          else
            (val, var_SetBool root1 true)
        else
          -- a drawable not from the root object is assumed not busy
          (val, root1)
      -- vlc_mutex_unlock (&serializer);
      let val1 := locked.1
      let root2 := locked.2
      -- var_Destroy (obj, varname);
      if is_empty ptr val1 then
        -- var_Destroy (obj->p_libvlc, "drawable-busy"); return VLC_EGENERIC;
        { ret := RetCode.VLC_EGENERIC, wnd := wnd, root := var_Destroy root2 }
      else
        { ret := RetCode.VLC_SUCCESS
          wnd := { wnd with handle := some (handle_of ptr val1)
                            control := some control_t.Control }
          root := root2 }

/-- `OpenXID (obj)`: `Open (obj, "drawable-xid", false)`. -/
def OpenXID (c : OpenCall) (root : libvlc_int_t) (wnd : vout_window_t) : OpenResult :=
  Open c root wnd VarName.drawable_xid false

/-- `OpenHWND (obj)`: `Open (obj, "drawable-hwnd", true)`. -/
def OpenHWND (c : OpenCall) (root : libvlc_int_t) (wnd : vout_window_t) : OpenResult :=
  Open c root wnd VarName.drawable_hwnd true

/-- `Close (obj)`: release the drawable. The function returns nothing; its
effect is on the root object only. -/
def Close (root : libvlc_int_t) : libvlc_int_t :=
  -- var_SetBool (obj->p_libvlc, "drawable-busy", false);
  -- var_Destroy (obj->p_libvlc, "drawable-busy");
  var_Destroy (var_SetBool root false)

/-- The values of the three query codes the `switch` of `Control` names. They
are declared in a header, not in drawable.c, so they are taken as a parameter;
being the case labels of one `switch`, they are pairwise distinct. -/
structure QueryCodes where
  VOUT_GET_SIZE : Int
  VOUT_SET_SIZE : Int
  VOUT_SET_STAY_ON_TOP : Int
  get_ne_set : VOUT_GET_SIZE ≠ VOUT_SET_SIZE
  get_ne_top : VOUT_GET_SIZE ≠ VOUT_SET_STAY_ON_TOP
  set_ne_top : VOUT_SET_SIZE ≠ VOUT_SET_STAY_ON_TOP

/-- What one call of `Control` leaves behind: the return code, the window, the
values stored through the two pointers taken from the argument list (`none`
when nothing was stored) and the query number given to `msg_Warn` (`none` when
no warning was logged). -/
structure ControlResult where
  ret : RetCode
  wnd : vout_window_t
  pi_width : Option Nat
  pi_height : Option Nat
  warned : Option Int
  deriving DecidableEq

/-- `Control (wnd, query, ap)`. -/
def Control (q : QueryCodes) (wnd : vout_window_t) (query : Int) : ControlResult :=
  if query = q.VOUT_GET_SIZE then
    -- *pi_width = wnd->width; *pi_height = wnd->height; return VLC_SUCCESS;
    { ret := RetCode.VLC_SUCCESS, wnd := wnd
      pi_width := some wnd.width, pi_height := some wnd.height, warned := none }
  else if query = q.VOUT_SET_SIZE ∨ query = q.VOUT_SET_STAY_ON_TOP then
    -- not allowed
    { ret := RetCode.VLC_EGENERIC, wnd := wnd
      pi_width := none, pi_height := none, warned := none }
  else
    -- msg_Warn (wnd, "unsupported control query %d", query);
    { ret := RetCode.VLC_EGENERIC, wnd := wnd
      pi_width := none, pi_height := none, warned := some query }

/-- One admissible assignment of the query codes (0, 1, 2). -/
def sample_codes : QueryCodes :=
  { VOUT_GET_SIZE := 0, VOUT_SET_SIZE := 1, VOUT_SET_STAY_ON_TOP := 2
    get_ne_set := by decide, get_ne_top := by decide, set_ne_top := by decide }

/-! ## Sequences of calls -/

/-- A window object as the host hands it to `Open`: nothing stored in `handle`
and `control` yet. -/
def fresh_window : vout_window_t :=
  { handle := none, width := 0, height := 0, control := none }

/-- The calls a playback session makes on the module. -/
inductive Event
  | OpenXID (c : OpenCall)
  | OpenHWND (c : OpenCall)
  | Close

/-- The root object together with the number of sessions that hold a claim:
those whose `Open` returned `VLC_SUCCESS` and that did not call `Close` yet. -/
structure Sys where
  root : libvlc_int_t
  holders : Nat
  deriving DecidableEq

/-- The effect of one call on the system. `Close` is called only by a session
whose `Open` succeeded, so it is not enabled when no session holds a claim. -/
def step (s : Sys) (e : Event) : Sys :=
  match e with
  | Event.OpenXID c =>
    let r := OpenXID c s.root fresh_window
    { root := r.root
      holders := if r.ret = RetCode.VLC_SUCCESS then s.holders + 1 else s.holders }
  | Event.OpenHWND c =>
    let r := OpenHWND c s.root fresh_window
    { root := r.root
      holders := if r.ret = RetCode.VLC_SUCCESS then s.holders + 1 else s.holders }
  | Event.Close =>
    if s.holders = 0 then s
    else { root := Close s.root, holders := s.holders - 1 }

/-- The system after a sequence of calls. -/
def run (s : Sys) (es : List Event) : Sys :=
  es.foldl step s

/-- The initial system for given registered handles: the busy variable does not
exist (the flag reads clear) and no session holds a claim. -/
def initial (xid : Int) (hwnd : Nat) : Sys :=
  { root := { drawable_xid := { i_int := xid, p_address := NULL }
              drawable_hwnd := { i_int := 0, p_address := hwnd }
              drawable_busy := none }
    holders := 0 }

/-- A call in which both `var_Create` succeed and the window inherits the
value `val` for the slot's variable. -/
def inherit (val : vlc_value_t) : OpenCall :=
  { busy_created := true, var_created := true, val := val }

/-- A call in which both `var_Create` succeed and the window inherits the
integer `x` for "drawable-xid". -/
def xid_call (x : Int) : OpenCall :=
  inherit { i_int := x, p_address := NULL }

/-- A call in which both `var_Create` succeed and the window inherits the
address `p` for "drawable-hwnd". -/
def hwnd_call (p : Nat) : OpenCall :=
  inherit { i_int := 0, p_address := p }

/-- The return codes of a sequence of `Open` calls on one slot, made one after
the other with no `Close` in between, each on the root object the call before
left behind. -/
def open_seq (root : libvlc_int_t) (varname : VarName) (ptr : Bool) :
    List OpenCall → List RetCode
  | [] => []
  | c :: cs =>
    (Open c root fresh_window varname ptr).ret ::
      open_seq (Open c root fresh_window varname ptr).root varname ptr cs

/-- The usage count of an existing busy variable is at least one. -/
def usage_ok (root : libvlc_int_t) : Bool :=
  match root.drawable_busy with
  | none => true
  | some v => decide (0 < v.i_usage)

/-- The handle registered on the root object for a slot, picked by the same
flag as `ptr`: "drawable-hwnd" for the address slot, "drawable-xid" for the
integer slot. -/
def slot_name (ptr : Bool) : VarName :=
  if ptr then VarName.drawable_hwnd else VarName.drawable_xid

/-- The entry point of a slot: `OpenHWND` for the address slot, `OpenXID` for
the integer slot. -/
def open_slot (ptr : Bool) (c : OpenCall) (root : libvlc_int_t)
    (wnd : vout_window_t) : OpenResult :=
  if ptr then OpenHWND c root wnd else OpenXID c root wnd

/-- An event a window makes that inherits the slot's value from the root object
(whose registered handles are `xid` and `hwnd`), with both `var_Create`
succeeding; `Close` is always of this kind. -/
def from_root (xid : Int) (hwnd : Nat) : Event → Bool
  | Event.OpenXID c => c.busy_created && c.var_created && decide (c.val.i_int = xid)
  | Event.OpenHWND c => c.busy_created && c.var_created && decide (c.val.p_address = hwnd)
  | Event.Close => true

/-- The state of the system as long as every window inherits its slot value
from the root object: the registered handles are `xid` and `hwnd`, and either
the busy variable does not exist and nobody holds a claim, or it exists with
the flag set and one usage, and exactly one session holds a claim. -/
def root_only_inv (xid : Int) (hwnd : Nat) (s : Sys) : Prop :=
  s.root.drawable_xid.i_int = xid ∧ s.root.drawable_hwnd.p_address = hwnd ∧
  ((s.root.drawable_busy = none ∧ s.holders = 0) ∨
    (s.root.drawable_busy = some { b_bool := true, i_usage := 1 } ∧ s.holders = 1))

instance (xid : Int) (hwnd : Nat) (s : Sys) : Decidable (root_only_inv xid hwnd s) := by
  unfold root_only_inv
  infer_instance

/-! ## Basic facts about the variable store -/

open RetCode

theorem var_GetBool_var_Create (root : libvlc_int_t) :
    var_GetBool (var_Create root) = var_GetBool root := by
  rcases root with ⟨x, p, _ | ⟨b, u⟩⟩ <;> rfl

theorem var_Create_xid (root : libvlc_int_t) :
    (var_Create root).drawable_xid = root.drawable_xid := by
  rcases root with ⟨x, p, _ | ⟨b, u⟩⟩ <;> rfl

theorem var_Create_hwnd (root : libvlc_int_t) :
    (var_Create root).drawable_hwnd = root.drawable_hwnd := by
  rcases root with ⟨x, p, _ | ⟨b, u⟩⟩ <;> rfl

theorem var_SetBool_xid (root : libvlc_int_t) (b : Bool) :
    (var_SetBool root b).drawable_xid = root.drawable_xid := by
  rcases root with ⟨x, p, _ | ⟨b, u⟩⟩ <;> rfl

theorem var_SetBool_hwnd (root : libvlc_int_t) (b : Bool) :
    (var_SetBool root b).drawable_hwnd = root.drawable_hwnd := by
  rcases root with ⟨x, p, _ | ⟨b, u⟩⟩ <;> rfl

theorem var_Destroy_xid (root : libvlc_int_t) :
    (var_Destroy root).drawable_xid = root.drawable_xid := by
  rcases root with ⟨x, p, _ | ⟨b, u⟩⟩
  · rfl
  · simp only [var_Destroy]; split <;> rfl

theorem var_Destroy_hwnd (root : libvlc_int_t) :
    (var_Destroy root).drawable_hwnd = root.drawable_hwnd := by
  rcases root with ⟨x, p, _ | ⟨b, u⟩⟩
  · rfl
  · simp only [var_Destroy]; split <;> rfl

theorem var_Get_var_Create (root : libvlc_int_t) (varname : VarName) :
    var_Get (var_Create root) varname = var_Get root varname := by
  cases varname
  · exact var_Create_xid root
  · exact var_Create_hwnd root

theorem var_GetBool_var_SetBool_false (root : libvlc_int_t) :
    var_GetBool (var_SetBool root false) = false := by
  rcases root with ⟨x, p, _ | ⟨b, u⟩⟩ <;> rfl

theorem var_GetBool_var_Destroy_of_clear (root : libvlc_int_t)
    (h : var_GetBool root = false) : var_GetBool (var_Destroy root) = false := by
  rcases root with ⟨x, p, _ | ⟨b, u⟩⟩
  · rfl
  · simp only [var_GetBool] at h
    simp only [var_Destroy]
    split
    · exact h
    · rfl

/-- After creating the busy variable, a destroy undoes the creation when the
usage count was sound. -/
theorem var_Destroy_var_Create (root : libvlc_int_t) (h : usage_ok root = true) :
    var_Destroy (var_Create root) = root := by
  rcases root with ⟨x, p, _ | ⟨b, u⟩⟩
  · rfl
  · have hu : 0 < u := by simpa [usage_ok] using h
    simp [var_Destroy, var_Create, hu]

/-! ## The four ways through `Open` once both variables were created -/

theorem is_empty_clear_value (ptr : Bool) (val : vlc_value_t) :
    is_empty ptr (clear_value ptr val) = true := by
  cases ptr <;> simp [is_empty, clear_value]

/-- The slot is free and the window got its value from the root object: the
flag is set and the handle given out. -/
theorem Open_claim (c : OpenCall) (root : libvlc_int_t) (wnd : vout_window_t)
    (varname : VarName) (ptr : Bool)
    (hb : c.busy_created = true) (hv : c.var_created = true)
    (hsame : same_value ptr c.val (var_Get root varname) = true)
    (hfree : var_GetBool root = false) (hne : is_empty ptr c.val = false) :
    Open c root wnd varname ptr =
      { ret := VLC_SUCCESS
        wnd := { wnd with handle := some (handle_of ptr c.val)
                          control := some control_t.Control }
        root := var_SetBool (var_Create root) true } := by
  simp [Open, hb, hv, var_Get_var_Create, var_GetBool_var_Create, hsame, hfree, hne]

/-- The slot is busy and the window got its value from the root object: the
call fails and gives back the usage it took. -/
theorem Open_busy (c : OpenCall) (root : libvlc_int_t) (wnd : vout_window_t)
    (varname : VarName) (ptr : Bool)
    (hb : c.busy_created = true) (hv : c.var_created = true)
    (hsame : same_value ptr c.val (var_Get root varname) = true)
    (hbusy : var_GetBool root = true) :
    Open c root wnd varname ptr =
      { ret := VLC_EGENERIC, wnd := wnd, root := var_Destroy (var_Create root) } := by
  simp [Open, hb, hv, var_Get_var_Create, var_GetBool_var_Create, hsame, hbusy,
    is_empty_clear_value]

/-- The window got a value that is not the root object's: the flag is neither
read nor written. -/
theorem Open_off_root (c : OpenCall) (root : libvlc_int_t) (wnd : vout_window_t)
    (varname : VarName) (ptr : Bool)
    (hb : c.busy_created = true) (hv : c.var_created = true)
    (hdiff : same_value ptr c.val (var_Get root varname) = false)
    (hne : is_empty ptr c.val = false) :
    Open c root wnd varname ptr =
      { ret := VLC_SUCCESS
        wnd := { wnd with handle := some (handle_of ptr c.val)
                          control := some control_t.Control }
        root := var_Create root } := by
  simp [Open, hb, hv, var_Get_var_Create, hdiff, hne]

/-- The window got the empty value: the call fails and the window is as it
was. -/
theorem Open_empty (c : OpenCall) (root : libvlc_int_t) (wnd : vout_window_t)
    (varname : VarName) (ptr : Bool)
    (hb : c.busy_created = true) (hv : c.var_created = true)
    (hval : is_empty ptr c.val = true) :
    (Open c root wnd varname ptr).ret = VLC_EGENERIC ∧
      (Open c root wnd varname ptr).wnd = wnd := by
  simp only [Open, hb, hv]
  cases hs : same_value ptr c.val (var_Get (var_Create root) varname) <;>
    cases hg : var_GetBool (var_Create root) <;>
    simp [hval, is_empty_clear_value]

/-- Whatever happens, a call that does not return `VLC_SUCCESS` hands back the
window it was given. -/
theorem Open_failure_keeps_window (c : OpenCall) (root : libvlc_int_t)
    (wnd : vout_window_t) (varname : VarName) (ptr : Bool)
    (hret : (Open c root wnd varname ptr).ret ≠ VLC_SUCCESS) :
    (Open c root wnd varname ptr).wnd = wnd := by
  revert hret
  simp only [Open]
  split_ifs <;> simp

/-- No call changes the handles registered on the root object. -/
theorem Open_keeps_registered (c : OpenCall) (root : libvlc_int_t)
    (wnd : vout_window_t) (varname : VarName) (ptr : Bool) :
    (Open c root wnd varname ptr).root.drawable_xid = root.drawable_xid ∧
      (Open c root wnd varname ptr).root.drawable_hwnd = root.drawable_hwnd := by
  simp only [Open]
  split_ifs <;>
    simp [var_Create_xid, var_Create_hwnd, var_SetBool_xid, var_SetBool_hwnd,
      var_Destroy_xid, var_Destroy_hwnd]

theorem var_Get_var_SetBool (root : libvlc_int_t) (b : Bool) (varname : VarName) :
    var_Get (var_SetBool root b) varname = var_Get root varname := by
  cases varname
  · exact var_SetBool_xid root b
  · exact var_SetBool_hwnd root b

theorem var_GetBool_claimed (root : libvlc_int_t) :
    var_GetBool (var_SetBool (var_Create root) true) = true := by
  rcases root with ⟨x, p, _ | ⟨b, u⟩⟩ <;> rfl

theorem usage_ok_claimed (root : libvlc_int_t) :
    usage_ok (var_SetBool (var_Create root) true) = true := by
  rcases root with ⟨x, p, _ | ⟨b, u⟩⟩ <;> simp [usage_ok, var_SetBool, var_Create]

theorem usage_ok_var_Create (root : libvlc_int_t) :
    usage_ok (var_Create root) = true := by
  rcases root with ⟨x, p, _ | ⟨b, u⟩⟩ <;> simp [usage_ok, var_Create]

theorem is_empty_of_same_value (ptr : Bool) (a b : vlc_value_t)
    (h : same_value ptr a b = true) : is_empty ptr a = is_empty ptr b := by
  cases ptr <;> simp_all [same_value, is_empty]

/-- On a busy slot every call of a window that inherits from the root object
fails and leaves the root object as it was. -/
theorem open_seq_busy (varname : VarName) (ptr : Bool) (cs : List OpenCall)
    (root : libvlc_int_t) (hok : usage_ok root = true) (hbusy : var_GetBool root = true)
    (hall : ∀ d ∈ cs, d.busy_created = true ∧ d.var_created = true ∧
      same_value ptr d.val (var_Get root varname) = true) :
    open_seq root varname ptr cs = List.replicate cs.length VLC_EGENERIC := by
  induction cs with
  | nil => rfl
  | cons d ds ih =>
    obtain ⟨hb, hv, hs⟩ := hall d (List.mem_cons_self d ds)
    have hstep := Open_busy d root fresh_window varname ptr hb hv hs hbusy
    rw [var_Destroy_var_Create root hok] at hstep
    simp only [open_seq, hstep, List.length_cons, List.replicate_succ]
    rw [ih (fun e he => hall e (List.mem_cons_of_mem d he))]

/-- Mutual exclusion among the windows that inherit the slot's value from the
root object: with a non-empty registered handle and a clear flag, the first of
any sequence of `Open` calls returns `VLC_SUCCESS` and all later ones return
`VLC_EGENERIC`. -/
theorem open_seq_from_root (root : libvlc_int_t) (varname : VarName) (ptr : Bool)
    (c : OpenCall) (cs : List OpenCall)
    (hfree : var_GetBool root = false)
    (hne : is_empty ptr (var_Get root varname) = false)
    (hall : ∀ d ∈ c :: cs, d.busy_created = true ∧ d.var_created = true ∧
      same_value ptr d.val (var_Get root varname) = true) :
    open_seq root varname ptr (c :: cs) =
      VLC_SUCCESS :: List.replicate cs.length VLC_EGENERIC := by
  obtain ⟨hb, hv, hs⟩ := hall c (List.mem_cons_self c cs)
  have hne1 : is_empty ptr c.val = false := by
    rw [is_empty_of_same_value ptr _ _ hs]; exact hne
  have hstep := Open_claim c root fresh_window varname ptr hb hv hs hfree hne1
  simp only [open_seq, hstep]
  rw [open_seq_busy varname ptr cs _ (usage_ok_claimed root) (var_GetBool_claimed root)]
  intro d hd
  rw [var_Get_var_SetBool, var_Get_var_Create]
  exact hall d (List.mem_cons_of_mem c hd)

theorem same_value_self (ptr : Bool) (a : vlc_value_t) : same_value ptr a a = true := by
  cases ptr <;> simp [same_value]

theorem open_slot_eq (ptr : Bool) (c : OpenCall) (root : libvlc_int_t)
    (wnd : vout_window_t) :
    open_slot ptr c root wnd = Open c root wnd (slot_name ptr) ptr := by
  cases ptr <;> rfl

theorem var_GetBool_Close (root : libvlc_int_t) : var_GetBool (Close root) = false :=
  var_GetBool_var_Destroy_of_clear _ (var_GetBool_var_SetBool_false root)

theorem var_Get_Close (root : libvlc_int_t) (varname : VarName) :
    var_Get (Close root) varname = var_Get root varname := by
  cases varname
  · exact (var_Destroy_xid _).trans (var_SetBool_xid root false)
  · exact (var_Destroy_hwnd _).trans (var_SetBool_hwnd root false)

/-! ## What holds as long as every window inherits from the root object -/

/-- One call of a window that inherits from the root object keeps
`root_only_inv`. -/
theorem step_root_only (xid : Int) (hwnd : Nat) (s : Sys) (e : Event)
    (hinv : root_only_inv xid hwnd s) (he : from_root xid hwnd e = true) :
    root_only_inv xid hwnd (step s e) := by
  obtain ⟨⟨⟨rx, rxp⟩, ⟨rhi, rh⟩, rb⟩, n⟩ := s
  obtain ⟨hx, hp, hcase⟩ := hinv
  simp only at hx hp hcase
  subst hx hp
  cases e with
  | OpenXID c =>
    obtain ⟨cb, cv, ⟨ci, cp⟩⟩ := c
    simp only [from_root, Bool.and_eq_true, decide_eq_true_eq] at he
    obtain ⟨⟨hb, hv⟩, hval⟩ := he
    subst hb hv hval
    rcases hcase with ⟨h1, h2⟩ | ⟨h1, h2⟩ <;> subst h1 h2 <;>
      by_cases h0 : ci = 0 <;>
      simp [root_only_inv, step, OpenXID, Open, var_Create, var_Get, var_GetBool,
        var_SetBool, var_Destroy, same_value, is_empty, clear_value, h0]
  | OpenHWND c =>
    obtain ⟨cb, cv, ⟨ci, cp⟩⟩ := c
    simp only [from_root, Bool.and_eq_true, decide_eq_true_eq] at he
    obtain ⟨⟨hb, hv⟩, hval⟩ := he
    subst hb hv hval
    rcases hcase with ⟨h1, h2⟩ | ⟨h1, h2⟩ <;> subst h1 h2 <;>
      by_cases h0 : cp = NULL <;>
      simp [root_only_inv, step, OpenHWND, Open, var_Create, var_Get, var_GetBool,
        var_SetBool, var_Destroy, same_value, is_empty, clear_value, h0]
  | Close =>
    rcases hcase with ⟨h1, h2⟩ | ⟨h1, h2⟩ <;> subst h1 h2 <;>
      simp [root_only_inv, step, Close, var_SetBool, var_Destroy]

/-- Any sequence of such calls keeps `root_only_inv`. -/
theorem run_root_only (xid : Int) (hwnd : Nat) (es : List Event) (s : Sys)
    (hinv : root_only_inv xid hwnd s) (hes : ∀ e ∈ es, from_root xid hwnd e = true) :
    root_only_inv xid hwnd (run s es) := by
  induction es generalizing s with
  | nil => exact hinv
  | cons e es ih =>
    simp only [run, List.foldl_cons]
    exact ih (step s e)
      (step_root_only xid hwnd s e hinv (hes e (List.mem_cons_self e es)))
      (fun d hd => hes d (List.mem_cons_of_mem e hd))

/-- As long as every window inherits its slot value from the root object and
the variable store creates what it is asked to, the busy flag is set exactly
when a session holds a claim, and at most one session does. -/
theorem busy_iff_held_from_root (xid : Int) (hwnd : Nat) (es : List Event)
    (hes : ∀ e ∈ es, from_root xid hwnd e = true) :
    (var_GetBool (run (initial xid hwnd) es).root = true ↔
      0 < (run (initial xid hwnd) es).holders) ∧
    (run (initial xid hwnd) es).holders ≤ 1 := by
  have h := run_root_only xid hwnd es (initial xid hwnd)
    ⟨rfl, rfl, Or.inl ⟨rfl, rfl⟩⟩ hes
  obtain ⟨_, _, ⟨h1, h2⟩ | ⟨h1, h2⟩⟩ := h <;>
    simp [var_GetBool, h1, h2]

/-- A call that returns `VLC_EGENERIC` leaves the busy flag as it read before
the call when the slot was busy, when the busy variable did not exist yet, or
when the window's value is not the root object's. -/
theorem failed_Open_keeps_flag (c : OpenCall) (root : libvlc_int_t)
    (wnd : vout_window_t) (varname : VarName) (ptr : Bool) (hok : usage_ok root = true)
    (hret : (Open c root wnd varname ptr).ret = VLC_EGENERIC)
    (hcase : var_GetBool root = true ∨ root.drawable_busy = none ∨
      same_value ptr c.val (var_Get root varname) = false) :
    var_GetBool (Open c root wnd varname ptr).root = var_GetBool root := by
  cases hb : c.busy_created
  · simp [Open, hb] at hret
  cases hv : c.var_created
  · simp [Open, hb, hv] at hret
  cases hs : same_value ptr c.val (var_Get root varname)
  · cases hne : is_empty ptr c.val
    · rw [Open_off_root c root wnd varname ptr hb hv hs hne] at hret
      exact RetCode.noConfusion hret
    · have : Open c root wnd varname ptr =
          { ret := VLC_EGENERIC, wnd := wnd, root := var_Destroy (var_Create root) } := by
        simp [Open, hb, hv, var_Get_var_Create, hs, hne]
      rw [this, var_Destroy_var_Create root hok]
  · cases hg : var_GetBool root
    · cases hne : is_empty ptr c.val
      · rw [Open_claim c root wnd varname ptr hb hv hs hg hne] at hret
        exact RetCode.noConfusion hret
      · rcases hcase with h | h | h
        · rw [hg] at h; exact Bool.noConfusion h
        · have : Open c root wnd varname ptr =
              { ret := VLC_EGENERIC, wnd := wnd
                root := var_Destroy (var_SetBool (var_Create root) true) } := by
            simp [Open, hb, hv, var_Get_var_Create, var_GetBool_var_Create, hs, hg, hne]
          rw [this]
          rcases root with ⟨x, p, rb⟩
          simp only at h
          subst h
          rfl
        · rw [hs] at h; exact Bool.noConfusion h
    · rw [Open_busy c root wnd varname ptr hb hv hs hg, var_Destroy_var_Create root hok]
      exact hg

/-- When the value the call itself reads for the slot is the empty sentinel
(0 through the integer view, NULL through the address view), `Open` never
returns `VLC_SUCCESS` and hands the window back untouched, whatever the root
object's state and whatever the variable store answers; once both `var_Create`
calls succeeded the return code is `VLC_EGENERIC`. -/
theorem Open_empty_value_fails (c : OpenCall) (root : libvlc_int_t)
    (wnd : vout_window_t) (varname : VarName) (ptr : Bool)
    (hval : is_empty ptr c.val = true) :
    (Open c root wnd varname ptr).ret ≠ VLC_SUCCESS ∧
    (Open c root wnd varname ptr).wnd = wnd ∧
    (c.busy_created = true → c.var_created = true →
      (Open c root wnd varname ptr).ret = VLC_EGENERIC) := by
  have key : (Open c root wnd varname ptr).ret ≠ VLC_SUCCESS := by
    cases hb : c.busy_created
    · simp [Open, hb]
    · cases hv : c.var_created
      · simp [Open, hb, hv]
      · rw [(Open_empty c root wnd varname ptr hb hv hval).1]; decide
  refine ⟨key, Open_failure_keeps_window c root wnd varname ptr key, ?_⟩
  intro hb hv
  exact (Open_empty c root wnd varname ptr hb hv hval).1

/-- Empty-slot rejection among the windows that inherit the slot's value from
the root object: when the handle registered on the root object is the empty
sentinel, `Open` returns `VLC_EGENERIC` whatever the busy flag is. -/
theorem Open_empty_from_root (c : OpenCall) (root : libvlc_int_t)
    (wnd : vout_window_t) (varname : VarName) (ptr : Bool)
    (hb : c.busy_created = true) (hv : c.var_created = true)
    (hsame : same_value ptr c.val (var_Get root varname) = true)
    (hreg : is_empty ptr (var_Get root varname) = true) :
    (Open c root wnd varname ptr).ret = VLC_EGENERIC ∧
      (Open c root wnd varname ptr).wnd = wnd :=
  Open_empty c root wnd varname ptr hb hv
    (by rw [is_empty_of_same_value ptr _ _ hsame]; exact hreg)

/-! ## The claims -/

/-- C1. Mutual exclusion does not hold for a drawable that is not the root
object's: with 42 registered on the root object for "drawable-xid" and the busy
flag clear, two windows that both inherit 7 (set on an object between them and
the root) call `OpenXID` one after the other with no `Close` in between, and
both calls return `VLC_SUCCESS` with the handle 7; the flag is still clear
afterwards. -/
theorem drawable_off_root_claimed_twice :
    var_GetBool (initial 42 0).root = false ∧
    (OpenXID (xid_call 7) (initial 42 0).root fresh_window).ret = VLC_SUCCESS ∧
    (OpenXID (xid_call 7) (initial 42 0).root fresh_window).wnd.handle
      = some (handle_t.xid 7) ∧
    (OpenXID (xid_call 7)
      (OpenXID (xid_call 7) (initial 42 0).root fresh_window).root fresh_window).ret
      = VLC_SUCCESS ∧
    (OpenXID (xid_call 7)
      (OpenXID (xid_call 7) (initial 42 0).root fresh_window).root fresh_window).wnd.handle
      = some (handle_t.xid 7) ∧
    var_GetBool (OpenXID (xid_call 7)
      (OpenXID (xid_call 7) (initial 42 0).root fresh_window).root fresh_window).root
      = false ∧
    open_seq (initial 42 0).root VarName.drawable_xid false [xid_call 7, xid_call 7]
      = [VLC_SUCCESS, VLC_SUCCESS] := by
  decide

/-- C4, as stated, fails: with 42 registered for "drawable-xid", address 5 for
"drawable-hwnd" and the flag clear, `OpenHWND` alone returns `VLC_SUCCESS`, but
after an `OpenXID` that succeeded the same `OpenHWND` returns `VLC_EGENERIC`. -/
theorem slots_share_busy_flag :
    (OpenHWND (hwnd_call 5) (initial 42 5).root fresh_window).ret = VLC_SUCCESS ∧
    (OpenXID (xid_call 42) (initial 42 5).root fresh_window).ret = VLC_SUCCESS ∧
    (OpenHWND (hwnd_call 5)
      (OpenXID (xid_call 42) (initial 42 5).root fresh_window).root fresh_window).ret
      = VLC_EGENERIC := by
  decide

/-- C4, amended. The two slots share the one flag "drawable-busy". For a root
object with both registered handles non-empty and windows that inherit them
from the root object: a call on slot A never changes the handle registered for
slot B; when the call on A succeeds, the call on B that would have succeeded
without it returns `VLC_EGENERIC` after it; when the call on A does not
succeed, the call on B does exactly what it would have done without it. -/
theorem claim_blocks_other_slot (root : libvlc_int_t) (a : Bool)
    (wa wb : vout_window_t) (hok : usage_ok root = true)
    (hA : is_empty a (var_Get root (slot_name a)) = false)
    (hB : is_empty (!a) (var_Get root (slot_name (!a))) = false) :
    var_Get (open_slot a (inherit (var_Get root (slot_name a))) root wa).root
        (slot_name (!a)) = var_Get root (slot_name (!a)) ∧
    ((open_slot a (inherit (var_Get root (slot_name a))) root wa).ret = VLC_SUCCESS →
      (open_slot (!a) (inherit (var_Get root (slot_name (!a)))) root wb).ret
        = VLC_SUCCESS ∧
      (open_slot (!a) (inherit (var_Get root (slot_name (!a))))
        (open_slot a (inherit (var_Get root (slot_name a))) root wa).root wb).ret
        = VLC_EGENERIC) ∧
    ((open_slot a (inherit (var_Get root (slot_name a))) root wa).ret ≠ VLC_SUCCESS →
      open_slot (!a) (inherit (var_Get root (slot_name (!a))))
        (open_slot a (inherit (var_Get root (slot_name a))) root wa).root wb
        = open_slot (!a) (inherit (var_Get root (slot_name (!a)))) root wb) := by
  simp only [open_slot_eq]
  have sA := same_value_self a (var_Get root (slot_name a))
  have sB := same_value_self (!a) (var_Get root (slot_name (!a)))
  cases hflag : var_GetBool root
  · have eA := Open_claim (inherit (var_Get root (slot_name a))) root wa (slot_name a) a
      rfl rfl sA hflag hA
    have eB := Open_claim (inherit (var_Get root (slot_name (!a)))) root wb
      (slot_name (!a)) (!a) rfl rfl sB hflag hB
    have eAB := Open_busy (inherit (var_Get root (slot_name (!a))))
      (var_SetBool (var_Create root) true) wb (slot_name (!a)) (!a) rfl rfl
      (by rw [var_Get_var_SetBool, var_Get_var_Create]; exact sB)
      (var_GetBool_claimed root)
    rw [eA]
    refine ⟨by rw [var_Get_var_SetBool, var_Get_var_Create], ?_, ?_⟩
    · intro _
      rw [eB, eAB]
      exact ⟨rfl, rfl⟩
    · intro h
      exact absurd rfl h
  · have eA := Open_busy (inherit (var_Get root (slot_name a))) root wa (slot_name a) a
      rfl rfl sA hflag
    rw [var_Destroy_var_Create root hok] at eA
    rw [eA]
    refine ⟨rfl, ?_, ?_⟩
    · intro h
      exact RetCode.noConfusion h
    · intro _
      rfl

/-- Witness for C4, amended: 42 registered for "drawable-xid", address 5 for
"drawable-hwnd", flag clear; the claim of the integer slot goes first. -/
theorem claim_blocks_other_slot_witness :
    (open_slot true (inherit (var_Get (initial 42 5).root (slot_name true)))
      (open_slot false (inherit (var_Get (initial 42 5).root (slot_name false)))
        (initial 42 5).root fresh_window).root fresh_window).ret = VLC_EGENERIC :=
  ((claim_blocks_other_slot (initial 42 5).root false fresh_window fresh_window
    (by decide) (by decide) (by decide)).2.1
      (by decide)).2

/-- C5. The invariant "busy flag set if and only if some session holds a claim"
is broken by a drawable that is not the root object's. From the initial system
with 42 registered for "drawable-xid": after one `OpenXID` by a window that
inherits 7, one session holds a successful `Open` and the flag is clear; and
after a claim from the root object (flag set), a second claim by a window that
inherits 7 and the `Close` of that second session, one session still holds its
claim and the flag is clear. -/
theorem busy_flag_misses_holder :
    (run (initial 42 0) [Event.OpenXID (xid_call 7)]).holders = 1 ∧
    var_GetBool (run (initial 42 0) [Event.OpenXID (xid_call 7)]).root = false ∧
    (run (initial 42 0)
      [Event.OpenXID (xid_call 42), Event.OpenXID (xid_call 7)]).holders = 2 ∧
    (run (initial 42 0)
      [Event.OpenXID (xid_call 42), Event.OpenXID (xid_call 7), Event.Close]).holders
      = 1 ∧
    var_GetBool (run (initial 42 0)
      [Event.OpenXID (xid_call 42), Event.OpenXID (xid_call 7), Event.Close]).root
      = false := by
  decide

/-- C6. Idempotent clear: `Close` has no error result, and on every root
object the busy flag reads clear after `Close`, the registered handles are
untouched, a flag that was clear before is the same after, and a second
`Close` leaves the flag as the first one left it. -/
theorem Close_clears_flag (root : libvlc_int_t) :
    var_GetBool (Close root) = false ∧
    (Close root).drawable_xid = root.drawable_xid ∧
    (Close root).drawable_hwnd = root.drawable_hwnd ∧
    (var_GetBool root = false → var_GetBool (Close root) = var_GetBool root) ∧
    var_GetBool (Close (Close root)) = var_GetBool (Close root) := by
  refine ⟨var_GetBool_Close root, ?_, ?_, ?_, ?_⟩
  · exact (var_Destroy_xid _).trans (var_SetBool_xid root false)
  · exact (var_Destroy_hwnd _).trans (var_SetBool_hwnd root false)
  · intro h
    rw [h]
    exact var_GetBool_Close root
  · rw [var_GetBool_Close, var_GetBool_Close]

/-- C7. The registered handles are read-only to `Open` and `Close`: whatever
the call, its arguments and its outcome, "drawable-xid" and "drawable-hwnd" of
the root object hold the same value after the call as before it. -/
theorem registered_handle_read_only (c : OpenCall) (root : libvlc_int_t)
    (wnd : vout_window_t) (varname : VarName) (ptr : Bool) :
    (Open c root wnd varname ptr).root.drawable_xid = root.drawable_xid ∧
    (Open c root wnd varname ptr).root.drawable_hwnd = root.drawable_hwnd ∧
    (OpenXID c root wnd).root.drawable_xid = root.drawable_xid ∧
    (OpenHWND c root wnd).root.drawable_hwnd = root.drawable_hwnd ∧
    (Close root).drawable_xid = root.drawable_xid ∧
    (Close root).drawable_hwnd = root.drawable_hwnd := by
  refine ⟨(Open_keeps_registered c root wnd varname ptr).1,
    (Open_keeps_registered c root wnd varname ptr).2,
    (Open_keeps_registered c root wnd VarName.drawable_xid false).1,
    (Open_keeps_registered c root wnd VarName.drawable_hwnd true).2, ?_, ?_⟩
  · exact (var_Destroy_xid _).trans (var_SetBool_xid root false)
  · exact (var_Destroy_hwnd _).trans (var_SetBool_hwnd root false)

/-- C8. Window-control surface: for all query codes, every window and every
query, `Control` returns `VLC_SUCCESS` exactly when the query is
`VOUT_GET_SIZE`, and then stores the window's width and height; every other
query returns `VLC_EGENERIC` and stores nothing, in particular `VOUT_SET_SIZE`
and `VOUT_SET_STAY_ON_TOP` (without a warning) and the queries that are none of
the three (with a warning); the window is the same after the call. -/
theorem Control_surface (q : QueryCodes) (wnd : vout_window_t) (query : Int) :
    ((Control q wnd query).ret = VLC_SUCCESS ↔ query = q.VOUT_GET_SIZE) ∧
    (query = q.VOUT_GET_SIZE →
      (Control q wnd query).pi_width = some wnd.width ∧
      (Control q wnd query).pi_height = some wnd.height) ∧
    (query ≠ q.VOUT_GET_SIZE →
      (Control q wnd query).ret = VLC_EGENERIC ∧
      (Control q wnd query).pi_width = none ∧
      (Control q wnd query).pi_height = none) ∧
    (Control q wnd q.VOUT_SET_SIZE).ret = VLC_EGENERIC ∧
    (Control q wnd q.VOUT_SET_SIZE).warned = none ∧
    (Control q wnd q.VOUT_SET_STAY_ON_TOP).ret = VLC_EGENERIC ∧
    (Control q wnd q.VOUT_SET_STAY_ON_TOP).warned = none ∧
    (query ≠ q.VOUT_GET_SIZE → query ≠ q.VOUT_SET_SIZE →
      query ≠ q.VOUT_SET_STAY_ON_TOP → (Control q wnd query).warned = some query) ∧
    (Control q wnd query).wnd = wnd := by
  have h1 : q.VOUT_SET_SIZE ≠ q.VOUT_GET_SIZE := fun h => q.get_ne_set h.symm
  have h2 : q.VOUT_SET_STAY_ON_TOP ≠ q.VOUT_GET_SIZE := fun h => q.get_ne_top h.symm
  refine ⟨?_, ?_, ?_, ?_, ?_, ?_, ?_, ?_, ?_⟩
  · unfold Control
    split_ifs with ha hb <;> simp [ha]
  · intro h
    simp [Control, h]
  · intro h
    unfold Control
    rw [if_neg h]
    split_ifs <;> simp
  · simp [Control, h1]
  · simp [Control, h1]
  · simp [Control, h2]
  · simp [Control, h2]
  · intro ha hb hc
    simp [Control, ha, hb, hc]
  · unfold Control
    split_ifs <;> rfl

/-- C9. A failed claim can set the busy flag. With nothing registered on the
root object for "drawable-xid", a first session opens a drawable 7 that is not
the root object's (it succeeds and leaves the busy variable behind with a
clear flag); a second window then inherits the empty value 0 from the root
object: its `OpenXID` returns `VLC_EGENERIC` and hands the window back
untouched, yet the busy flag, clear before the call, is set after it. -/
theorem failed_claim_sets_flag :
    (OpenXID (xid_call 7) (initial 0 0).root fresh_window).ret = VLC_SUCCESS ∧
    var_GetBool (OpenXID (xid_call 7) (initial 0 0).root fresh_window).root = false ∧
    (OpenXID (xid_call 0)
      (OpenXID (xid_call 7) (initial 0 0).root fresh_window).root fresh_window).ret
      = VLC_EGENERIC ∧
    (OpenXID (xid_call 0)
      (OpenXID (xid_call 7) (initial 0 0).root fresh_window).root fresh_window).wnd
      = fresh_window ∧
    var_GetBool (OpenXID (xid_call 0)
      (OpenXID (xid_call 7) (initial 0 0).root fresh_window).root fresh_window).root
      = true := by
  decide

end Drawable
